import Mathlib

/-!
Verification of the transaction-reconciliation and coin/network-parsing logic
of the bitexly backend. Definitions are shallow embeddings of the Python
source (provider view modules and `users/transaction_helpers.py`); theorems
settle the specification's claims about them.
-/

namespace Bitexly

/-! ## Basic helpers: Python truthiness and ordered table lookup -/

/-- Python truthiness of an optional string: `None` and `""` are falsy. -/
def strTruthy : Option String → Bool
  | none => false
  | some s => s ≠ ""

/-- Python truthiness of an optional integer: `None` and `0` are falsy. -/
def natTruthy : Option Nat → Bool
  | none => false
  | some n => n ≠ 0

/-- ASCII upper-casing of one character (the inputs this code handles are
ASCII tickers and status words, where Python `str.upper()` agrees). -/
def asciiUpperChar (c : Char) : Char :=
  if 'a' ≤ c ∧ c ≤ 'z' then Char.ofNat (c.toNat - 32) else c

/-- ASCII lower-casing of one character. -/
def asciiLowerChar (c : Char) : Char :=
  if 'A' ≤ c ∧ c ≤ 'Z' then Char.ofNat (c.toNat + 32) else c

/-- Python `s.upper()` on ASCII input. -/
def pyUpper (s : String) : String := ⟨s.data.map asciiUpperChar⟩

/-- Python `s.lower()` on ASCII input. -/
def pyLower (s : String) : String := ⟨s.data.map asciiLowerChar⟩

/-- Python `s.endswith(suf)`. -/
def strEndsWith (s suf : String) : Bool := suf.data.reverse.isPrefixOf s.data.reverse

/-- Python `s.startswith(p)` (used for the `cache.keys` pattern). -/
def strStartsWith (s p : String) : Bool := p.data.isPrefixOf s.data

/-- Python `s[:-n]` for `n ≤ len(s)`, `n > 0`. -/
def strDropRight (s : String) (n : Nat) : String := ⟨s.data.take (s.data.length - n)⟩

/-- Python `s[1:]`. -/
def strDropOne (s : String) : String := ⟨s.data.drop 1⟩

/-- Ordered association-table lookup (Python `dict` membership / `get`). -/
def lookupTab {α : Type} (tab : List (String × α)) (k : String) : Option α :=
  match tab with
  | [] => none
  | (k2, v) :: rest => if k = k2 then some v else lookupTab rest k

/-- `dict.get(k, d)`: lookup with a default. -/
def lookupTabD {α : Type} (tab : List (String × α)) (k : String) (d : α) : α :=
  (lookupTab tab k).getD d

/-! ## Coin/network parser, Exolix variant (`exolix/views.py`,
`parse_coin_and_network`).

The parser returns the `(coin, network)` pair together with a flag recording
whether the final best-effort fallback fired (the source logs a warning
there); no branch raises. -/

/-- `network_mappings` of `exolix/views.py` (exact-match tier). -/
def exolixExactTable : List (String × (String × String)) :=
  [("USDTTRC20", ("USDT", "TRX")),
   ("USDTERC20", ("USDT", "ETH")),
   ("USDTBEP20", ("USDT", "BSC")),
   ("USDTPOLYGON", ("USDT", "POLYGON")),
   ("USDTMATIC", ("USDT", "POLYGON")),
   ("USDTSOL", ("USDT", "SOL")),
   ("USDTAVAX", ("USDT", "AVAX")),
   ("USDTARBITRUM", ("USDT", "ARBITRUM")),
   ("USDTOPTIMISM", ("USDT", "OPTIMISM")),
   ("USDCTRC20", ("USDC", "TRX")),
   ("USDCERC20", ("USDC", "ETH")),
   ("USDCBEP20", ("USDC", "BSC")),
   ("USDCPOLYGON", ("USDC", "POLYGON")),
   ("USDCMATIC", ("USDC", "POLYGON")),
   ("USDCSOL", ("USDC", "SOL")),
   ("USDCAVAX", ("USDC", "AVAX")),
   ("USDCARBITRUM", ("USDC", "ARBITRUM")),
   ("USDCOPTIMISM", ("USDC", "OPTIMISM")),
   ("DAIERC20", ("DAI", "ETH")),
   ("DAIBEP20", ("DAI", "BSC")),
   ("DAIPOLYGON", ("DAI", "POLYGON")),
   ("BUSDBEP20", ("BUSD", "BSC")),
   ("BUSDERC20", ("BUSD", "ETH")),
   ("WBTCERC20", ("WBTC", "ETH")),
   ("WBTCBEP20", ("WBTC", "BSC")),
   ("WBTCPOLYGON", ("WBTC", "POLYGON")),
   ("WETHERC20", ("WETH", "ETH")),
   ("WETHBEP20", ("WETH", "BSC")),
   ("WETHPOLYGON", ("WETH", "POLYGON")),
   ("ETHBEP20", ("ETH", "BSC")),
   ("ETHPOLYGON", ("ETH", "POLYGON")),
   ("ETHARBITRUM", ("ETH", "ARBITRUM")),
   ("ETHOPTIMISM", ("ETH", "OPTIMISM")),
   ("BTCBEP20", ("BTC", "BSC")),
   ("BTCPOLYGON", ("BTC", "POLYGON")),
   ("BNBBEP20", ("BNB", "BSC")),
   ("BNBERC20", ("BNB", "ETH")),
   ("SHIBERC20", ("SHIB", "ETH")),
   ("SHIBBEP20", ("SHIB", "BSC")),
   ("LINKERC20", ("LINK", "ETH")),
   ("LINKBEP20", ("LINK", "BSC")),
   ("UNIERC20", ("UNI", "ETH")),
   ("UNIBEP20", ("UNI", "BSC"))]

/-- `network_suffixes` of `exolix/views.py` (suffix-strip tier, insertion
order preserved as Python dicts do). -/
def exolixSuffixTable : List (String × String) :=
  [("TRC20", "TRX"),
   ("ERC20", "ETH"),
   ("BEP20", "BSC"),
   ("POLYGON", "POLYGON"),
   ("MATIC", "POLYGON"),
   ("SOL", "SOL"),
   ("SOLANA", "SOL"),
   ("AVAX", "AVAX"),
   ("AVALANCHE", "AVAX"),
   ("ARBITRUM", "ARBITRUM"),
   ("OPTIMISM", "OPTIMISM"),
   ("BASE", "BASE")]

/-- `native_coins` of `exolix/views.py` (native-coin tier). -/
def exolixNativeTable : List (String × (String × String)) :=
  [("BTC", ("BTC", "BTC")),
   ("ETH", ("ETH", "ETH")),
   ("LTC", ("LTC", "LTC")),
   ("BCH", ("BCH", "BCH")),
   ("DOGE", ("DOGE", "DOGE")),
   ("XRP", ("XRP", "XRP")),
   ("ADA", ("ADA", "ADA")),
   ("DOT", ("DOT", "DOT")),
   ("TRX", ("TRX", "TRX")),
   ("BNB", ("BNB", "BSC")),
   ("SOL", ("SOL", "SOL")),
   ("MATIC", ("MATIC", "POLYGON")),
   ("AVAX", ("AVAX", "AVAX")),
   ("XMR", ("XMR", "XMR")),
   ("ATOM", ("ATOM", "ATOM")),
   ("XLM", ("XLM", "XLM")),
   ("NEAR", ("NEAR", "NEAR")),
   ("FTM", ("FTM", "FTM")),
   ("ALGO", ("ALGO", "ALGO")),
   ("VET", ("VET", "VET")),
   ("ICP", ("ICP", "ICP")),
   ("FIL", ("FIL", "FIL")),
   ("HBAR", ("HBAR", "HBAR")),
   ("APT", ("APT", "APT")),
   ("SUI", ("SUI", "SUI")),
   ("TON", ("TON", "TON"))]

/-- The suffix loop of `parse_coin_and_network`: the first table entry whose
suffix the code ends with wins; the source applies no non-emptiness check on
the remainder. -/
def firstSuffixMatch (u : String) : List (String × String) → Option (String × String)
  | [] => none
  | (suf, nw) :: rest =>
    if strEndsWith u suf then some (suf, nw) else firstSuffixMatch u rest

/-- `parse_coin_and_network` of `exolix/views.py`. Result is the
`(coin, network)` pair plus `true` when the fallback warning fired. -/
def parse_coin_and_network (coin_code : String) : (String × String) × Bool :=
  let u := pyUpper coin_code
  match lookupTab exolixExactTable u with
  | some p => (p, false)
  | none =>
    match firstSuffixMatch u exolixSuffixTable with
    | some (suf, nw) => ((strDropRight u suf.length, nw), false)
    | none =>
      match lookupTab exolixNativeTable u with
      | some p => (p, false)
      | none => ((u, u), true)

/-- The suffix-strip tier as the specification words it (§4.1): the first
suffix for which the remaining prefix is non-empty is used. Stated for
comparison with the source's `firstSuffixMatch`. -/
def firstSuffixMatchSpec (u : String) : List (String × String) → Option (String × String)
  | [] => none
  | (suf, nw) :: rest =>
    if strEndsWith u suf ∧ strDropRight u suf.length ≠ "" then some (suf, nw)
    else firstSuffixMatchSpec u rest

/-- The Exolix parser as the specification describes it: identical to
`parse_coin_and_network` except that the suffix tier skips suffixes whose
removal would leave an empty prefix. For comparison only. -/
def parse_coin_and_network_spec (coin_code : String) : (String × String) × Bool :=
  let u := pyUpper coin_code
  match lookupTab exolixExactTable u with
  | some p => (p, false)
  | none =>
    match firstSuffixMatchSpec u exolixSuffixTable with
    | some (suf, nw) => ((strDropRight u suf.length, nw), false)
    | none =>
      match lookupTab exolixNativeTable u with
      | some p => (p, false)
      | none => ((u, u), true)

/-! ## Coin/network parser, LetsExchange variant (`letsexchange/views.py`,
`parse_coin_and_network_letsexchange`). -/

/-- `multi_chain_coins` of `letsexchange/views.py` (ordered). -/
def letsxMultiChainTable : List (String × List String) :=
  [("USDT", ["TRX", "ETH", "BSC", "POLYGON", "SOL", "AVAX", "ARBITRUM", "OPTIMISM", "BASE", "TON", "NEAR"]),
   ("USDC", ["TRX", "ETH", "BSC", "POLYGON", "SOL", "AVAX", "ARBITRUM", "OPTIMISM", "BASE"]),
   ("DAI", ["ETH", "BSC", "POLYGON", "AVAX", "ARBITRUM", "OPTIMISM"]),
   ("BUSD", ["BSC", "ETH"]),
   ("WBTC", ["ETH", "BSC", "POLYGON", "AVAX", "ARBITRUM"]),
   ("WETH", ["ETH", "BSC", "POLYGON", "ARBITRUM", "OPTIMISM"]),
   ("ETH", ["ETH", "BSC", "POLYGON", "ARBITRUM", "OPTIMISM", "BASE"]),
   ("BTC", ["BTC", "BSC", "POLYGON"]),
   ("BNB", ["BSC", "ETH"]),
   ("SHIB", ["ETH", "BSC"]),
   ("LINK", ["ETH", "BSC", "POLYGON", "ARBITRUM"]),
   ("UNI", ["ETH", "BSC", "POLYGON", "ARBITRUM"]),
   ("MATIC", ["POLYGON", "ETH", "BSC"])]

/-- `network_mappings` of `letsexchange/views.py`. -/
def letsxNetworkMapTable : List (String × String) :=
  [("TRX", "TRC20"),
   ("BSC", "BEP20"),
   ("POLYGON", "POLYGON"),
   ("ETH", "ETH"),
   ("SOL", "SOL"),
   ("AVAX", "AVAXC"),
   ("ARBITRUM", "ARBITRUM"),
   ("OPTIMISM", "OPTIMISM"),
   ("BASE", "BASE"),
   ("TON", "TON"),
   ("NEAR", "NEAR"),
   ("BTC", "BTC")]

/-- `native_coins` of `letsexchange/views.py`. -/
def letsxNativeTable : List (String × String) :=
  [("BTC", "BTC"),
   ("ETH", "ETH"),
   ("LTC", "LTC"),
   ("BCH", "BCH"),
   ("DOGE", "DOGE"),
   ("XRP", "XRP"),
   ("ADA", "ADA"),
   ("DOT", "DOT"),
   ("TRX", "TRC20"),
   ("BNB", "BEP20"),
   ("SOL", "SOL"),
   ("MATIC", "POLYGON"),
   ("AVAX", "AVAXC"),
   ("XMR", "XMR"),
   ("ATOM", "ATOM"),
   ("XLM", "XLM"),
   ("NEAR", "NEAR"),
   ("FTM", "FTM"),
   ("ALGO", "ALGO"),
   ("VET", "VET"),
   ("ICP", "ICP"),
   ("FIL", "FIL"),
   ("HBAR", "HBAR"),
   ("APT", "APT"),
   ("SUI", "SUI"),
   ("TON", "TON"),
   ("OP", "OPTIMISM"),
   ("ARB", "ARBITRUM"),
   ("DASH", "DASH"),
   ("ZEC", "ZEC"),
   ("ETC", "ETC")]

/-- Inner loop over one base coin's network list: standard concatenation
match, then the character-overlap match (`base_coin[-1] == network[0]`). -/
def letsxTryNetworks (u base : String) : List String → Option (String × String)
  | [] => none
  | nw :: rest =>
    if u = base ++ nw then
      some (base, lookupTabD letsxNetworkMapTable nw nw)
    else if base.length > 0 ∧ nw.length > 0 ∧ base.data.getLast? = nw.data.head? ∧ u = base ++ strDropOne nw then
      some (base, lookupTabD letsxNetworkMapTable nw nw)
    else
      letsxTryNetworks u base rest

/-- Outer loop over `multi_chain_coins`. -/
def letsxTryMultiChain (u : String) : List (String × List String) → Option (String × String)
  | [] => none
  | (base, nws) :: rest =>
    match letsxTryNetworks u base nws with
    | some p => some p
    | none => letsxTryMultiChain u rest

/-- `parse_coin_and_network_letsexchange` of `letsexchange/views.py`.
Result is the `(coin, network)` pair plus `true` when the fallback warning
fired. -/
def parse_coin_and_network_letsexchange (coin_code : String) : (String × String) × Bool :=
  let u := pyUpper coin_code
  match letsxTryMultiChain u letsxMultiChainTable with
  | some p => (p, false)
  | none =>
    match lookupTab letsxNativeTable u with
    | some nw => ((u, nw), false)
    | none => ((u, u), true)

/-! ## Data model: webhook payloads, cache entries, database rows.

Webhook payloads are the JSON bodies the providers POST; absent JSON keys
are `none`. The cache is an ordered key-value store with per-key TTL
(`django.core.cache`); the database is the list of `Transaction` rows. -/

/-- OnRamp webhook JSON body (`onramp/views.py`, `onramp_webhook` docstring):
`referenceId`, `eventType`, `status`, `metadata.{eventId, eventCreatedAt,
failure_reasons}`. -/
structure OnrampPayload where
  referenceId : Option Nat := none
  eventType : String := ""
  statusValue : String := ""
  eventId : Option Nat := none
  eventCreatedAt : Option String := none
  failureReasons : String := ""
  deriving DecidableEq

/-- FinchPay webhook JSON body (`finchpay/views.py`, `finchpay_webhook`
docstring). -/
structure FinchPayload where
  pid : Option String := none
  status : String := ""
  externalId : Option String := none
  amountFrom : Option String := none
  assetFrom : Option String := none
  amountTo : Option String := none
  assetTo : Option String := none
  assetNetworkTo : Option String := none
  partnerProfitAmount : Option String := none
  partnerProfitCurrency : Option String := none
  eventTime : Option String := none
  transactionHash : Option String := none
  paymentMethod : Option String := none
  side : Option String := none
  deriving DecidableEq

/-- A raw webhook payload stored into a record's `webhook_data` key. -/
inductive WhData where
  | onramp (p : OnrampPayload)
  | finch (p : FinchPayload)
  deriving DecidableEq

/-- A value inside a row's `provider_data` JSON blob. -/
inductive PVal where
  | str (s : String)
  | nat (n : Nat)
  | onat (n : Option Nat)
  | pay (p : OnrampPayload)
  | gen (urlHash : String) (link : Option String)
  deriving DecidableEq

/-- A cached transaction record (the Python dict written by the
generate/create endpoints and mutated by webhooks and the status poller).
Keys a given flow never writes stay `none`. -/
structure TxnRec where
  transaction_id : String := ""
  db_id : Option Nat := none
  provider : String := ""
  status : String := ""
  url_hash : Option String := none
  widget_url : Option String := none
  created_at : Option Nat := none
  updated_at : Option Nat := none
  flow_type : Option String := none
  source_currency : Option String := none
  destination_currency : Option String := none
  amount : Option String := none
  network : Option String := none
  webhook_data : Option WhData := none
  provider_status : Option String := none
  onramp_reference_id : Option Nat := none
  event_type : Option String := none
  failure_reason : Option String := none
  last_event_id : Option Nat := none
  last_event_time : Option String := none
  updated_via : Option String := none
  external_id : Option String := none
  finchpay_transaction_id : Option String := none
  transaction_hash : Option String := none
  payment_method : Option String := none
  partner_profit_amount : Option String := none
  partner_profit_currency : Option String := none
  amount_from : Option String := none
  amount_to : Option String := none
  asset_from : Option String := none
  asset_to : Option String := none
  asset_network_to : Option String := none
  event_time : Option String := none
  side : Option String := none
  deriving DecidableEq

/-- A value held by the cache: a transaction record, a webhook dedup
marker, a `db_txn_*` id back-reference, or a plain string. -/
inductive CacheVal where
  | txn (r : TxnRec)
  | flag (b : Bool)
  | dbRef (n : Nat)
  | str (s : String)
  deriving DecidableEq

/-- Python truthiness of a cached value (`if cache.get(k):`). -/
def cvTruthy : CacheVal → Bool
  | .txn _ => true
  | .flag b => b
  | .dbRef n => n ≠ 0
  | .str s => s ≠ ""

/-- One cache binding with its TTL in seconds. -/
structure CacheBinding where
  key : String
  val : CacheVal
  ttl : Nat
  deriving DecidableEq

/-- The key-value cache, in key-enumeration order. -/
abbrev Cache := List CacheBinding

/-- `cache.get(k)`. -/
def cacheGet (c : Cache) (k : String) : Option CacheVal :=
  match c with
  | [] => none
  | b :: rest => if b.key = k then some b.val else cacheGet rest k

/-- `cache.set(k, v, timeout)`: replace in place or append. -/
def cacheSet (c : Cache) (k : String) (v : CacheVal) (ttl : Nat) : Cache :=
  match c with
  | [] => [⟨k, v, ttl⟩]
  | b :: rest => if b.key = k then ⟨k, v, ttl⟩ :: rest else b :: cacheSet rest k v ttl

/-- `cache.get(k)` when the handler treats the value as a transaction
record dict. -/
def cacheGetRec (c : Cache) (k : String) : Option TxnRec :=
  match cacheGet c k with
  | some (.txn r) => some r
  | _ => none

/-- The fallback scan of `onramp_webhook`: iterate `cache.keys('txn_onramp_*')`
in order and return the first record with `provider == 'ONRAMP'` and
`status == 'PENDING'`. -/
def firstPendingOnramp (c : Cache) : Option (String × TxnRec) :=
  match c with
  | [] => none
  | b :: rest =>
    if strStartsWith b.key "txn_onramp_" then
      match b.val with
      | .txn r =>
        if r.provider = "ONRAMP" ∧ r.status = "PENDING" then some (b.key, r)
        else firstPendingOnramp rest
      | _ => firstPendingOnramp rest
    else firstPendingOnramp rest

/-- A database `Transaction` row (`users/models.py` fields that the
reconciliation code reads or writes; decimals are carried as their string
form). -/
structure DbTxn where
  id : Nat := 0
  userId : Option Nat := none
  provider : String := ""
  transaction_type : String := ""
  transaction_id : String := ""
  provider_transaction_id : Option String := none
  provider_reference_id : Option Nat := none
  source_currency : String := ""
  source_amount : Option String := none
  destination_currency : String := ""
  destination_amount : Option String := none
  exchange_rate : Option String := none
  total_fees : Option String := none
  network_fee : Option String := none
  service_fee : Option String := none
  network : Option String := none
  wallet_address : Option String := none
  transaction_hash : Option String := none
  payment_method : Option String := none
  widget_url : Option String := none
  provider_data : List (String × PVal) := []
  status : String := ""
  failure_reason : Option String := none
  completed_at : Option Nat := none
  deriving DecidableEq

/-- The database: the list of `Transaction` rows in creation order. -/
abbrev Db := List DbTxn

/-- `provider_data[k] = v` on the JSON blob. -/
def pdSet (pd : List (String × PVal)) (k : String) (v : PVal) : List (String × PVal) :=
  match pd with
  | [] => [(k, v)]
  | (k2, v2) :: rest => if k2 = k then (k, v) :: rest else (k2, v2) :: pdSet rest k v

/-- `provider_data.update(new)` (dict merge, right side wins). -/
def pdUpdate (pd new : List (String × PVal)) : List (String × PVal) :=
  new.foldl (fun acc kv => pdSet acc kv.1 kv.2) pd

/-- Environment for a request handler run: the wall clock, the md5 digest
fragment used for fresh internal ids, and flags that model a raised
exception inside an operation the Python code wraps in `try`. -/
structure Oracle where
  now : Nat := 0
  hash16 : String := ""
  createRaises : Bool := false
  saveRaises : Bool := false
  findRaises : Bool := false
  deriving DecidableEq

/-- Result of Django's `Model.objects.get`. -/
inductive DbGetResult where
  | found (t : DbTxn)
  | notFound
  | multiple
  deriving DecidableEq

/-- `Transaction.objects.get(...)`: exactly one match, else
`DoesNotExist` / `MultipleObjectsReturned`. -/
def dbGet (db : Db) (p : DbTxn → Bool) : DbGetResult :=
  match db.filter p with
  | [] => .notFound
  | [t] => .found t
  | _ :: _ :: _ => .multiple

/-- `should_save_transaction` of `users/transaction_helpers.py`: save only
for an authenticated user (`some` user id). -/
def should_save_transaction (user : Option Nat) : Bool :=
  user.isSome

/-- The `Decimal('0.00000000')` defaulting of the fee arguments in
`create_transaction_record`: only a `None` argument gets the default. -/
def defaultFee : Option String → Option String
  | none => some "0.00000000"
  | some v => some v

/-- `create_transaction_record` of `users/transaction_helpers.py`.
Returns the created row (or `none` when any step raised — the whole body
sits in `try/except` returning `None`) together with the database and
cache after the call. An anonymous caller (`user = none`) raises on
`user.id` and is likewise caught. -/
def create_transaction_record (o : Oracle) (db : Db) (cache : Cache)
    (user : Option Nat) (provider transaction_type source_currency : String)
    (source_amount : Option String) (destination_currency : String)
    (destination_amount exchange_rate total_fees network_fee service_fee
     network wallet_address payment_method widget_url
     provider_transaction_id : Option String)
    (provider_reference_id : Option Nat) (transaction_hash : Option String)
    (provider_data : List (String × PVal)) : Option DbTxn × Db × Cache :=
  match user with
  | none => (none, db, cache)
  | some uid =>
    if o.createRaises then (none, db, cache)
    else
      let tid := "txn_" ++ pyLower provider ++ "_" ++ o.hash16
      let t : DbTxn :=
        { id := db.length + 1
          userId := some uid
          provider := pyUpper provider
          transaction_type := pyUpper transaction_type
          transaction_id := tid
          provider_transaction_id := provider_transaction_id
          provider_reference_id := provider_reference_id
          source_currency := pyUpper source_currency
          source_amount := source_amount
          destination_currency := pyUpper destination_currency
          destination_amount := destination_amount
          exchange_rate := exchange_rate
          total_fees := defaultFee total_fees
          network_fee := defaultFee network_fee
          service_fee := defaultFee service_fee
          network := network
          wallet_address := wallet_address
          transaction_hash := transaction_hash
          payment_method := payment_method
          widget_url := widget_url
          provider_data := provider_data
          status := "PENDING"
          failure_reason := none
          completed_at := none }
      (some t, db ++ [t], cacheSet cache ("db_txn_" ++ tid) (.dbRef t.id) 86400)

/-- The field-update block of `update_transaction_status` followed by
`transaction.save()`. `completed_at` is set only when the new status is
COMPLETED and the row's `completed_at` is still unset. -/
def updateApply (o : Oracle) (db : Db) (t : DbTxn)
    (status destination_amount transaction_hash failure_reason : Option String)
    (provider_data : Option (List (String × PVal))) : Option DbTxn × Db :=
  let t1 := if strTruthy status then { t with status := pyUpper (status.getD "") } else t
  let t2 := if destination_amount.isSome then { t1 with destination_amount := destination_amount } else t1
  let t3 := if strTruthy transaction_hash then { t2 with transaction_hash := transaction_hash } else t2
  let t4 := if strTruthy failure_reason then { t3 with failure_reason := failure_reason } else t3
  let t5 :=
    match provider_data with
    | some pd => if pd ≠ [] then { t4 with provider_data := pdUpdate t4.provider_data pd } else t4
    | none => t4
  let t6 :=
    if strTruthy status ∧ pyUpper (status.getD "") = "COMPLETED" ∧ t.completed_at = none then
      { t5 with completed_at := some o.now }
    else t5
  if o.saveRaises then (none, db)
  else (some t6, db.map (fun x => if x.id = t.id then t6 else x))

/-- `update_transaction_status` of `users/transaction_helpers.py`: find the
row by internal id, then by provider id, apply the updates and save; any
raised exception (a failing save, or `MultipleObjectsReturned` escaping the
inner `except DoesNotExist`) is caught by the outer handler which returns
`None` with the database untouched. -/
def update_transaction_status (o : Oracle) (db : Db)
    (transaction_id provider_transaction_id status destination_amount
     transaction_hash failure_reason : Option String)
    (provider_data : Option (List (String × PVal))) : Option DbTxn × Db :=
  let byTid : DbGetResult :=
    if strTruthy transaction_id then
      dbGet db (fun t => t.transaction_id = transaction_id.getD "")
    else .notFound
  match byTid with
  | .multiple => (none, db)
  | .found t => updateApply o db t status destination_amount transaction_hash failure_reason provider_data
  | .notFound =>
    if strTruthy provider_transaction_id then
      match dbGet db (fun t => t.provider_transaction_id = some (provider_transaction_id.getD "")) with
      | .multiple => (none, db)
      | .notFound => (none, db)
      | .found t => updateApply o db t status destination_amount transaction_hash failure_reason provider_data
    else (none, db)

/-- `find_transaction` of `users/transaction_helpers.py`: filter by user
and by internal or provider id; `DoesNotExist` gives `None`,
`MultipleObjectsReturned` falls back to `.first()`, any other exception
gives `None`. -/
def find_transaction (o : Oracle) (db : Db)
    (transaction_id provider_transaction_id : Option String)
    (user : Option Nat) : Option DbTxn :=
  if o.findRaises then none
  else
    let userOk : DbTxn → Bool := fun t =>
      match user with
      | some u => t.userId = some u
      | none => true
    if strTruthy transaction_id then
      match db.filter (fun t => userOk t ∧ t.transaction_id = transaction_id.getD "") with
      | [] => none
      | [t] => some t
      | t :: _ :: _ => some t
    else if strTruthy provider_transaction_id then
      match db.filter (fun t => userOk t ∧ t.provider_transaction_id = some (provider_transaction_id.getD "")) with
      | [] => none
      | [t] => some t
      | t :: _ :: _ => some t
    else none

/-! ## Endpoint embeddings -/

/-- Response shape of the generate-URL endpoint (success branch). -/
structure GenUrlResponse where
  httpStatus : Nat := 200
  success : Bool := true
  widgetUrl : Option String := none
  transactionId : String := ""
  urlHash : String := ""
  deriving DecidableEq

/-- The provider-success branch of `generate_onramp_url`
(`onramp/views.py`, the `result.get("status") == 1` arm): optionally
persist a database row (authenticated callers only), always write the
cache record keyed `txn_onramp_<urlHash>` with the row id as `db_id`
back-reference, and answer with the row's internal id or the cache key. -/
def generate_onramp_url (o : Oracle) (db : Db) (cache : Cache)
    (user : Option Nat) (flowType : Nat)
    (source_currency source_amount destination_currency network : String)
    (fiat_type : Nat) (url_hash : String) (link : Option String) :
    GenUrlResponse × Db × Cache :=
  let flowStr := if flowType = 1 then "BUY" else "SELL"
  let created :=
    if should_save_transaction user then
      create_transaction_record o db cache user "ONRAMP" flowStr
        source_currency (some source_amount) destination_currency
        none none none none none (some network) none none link (some url_hash)
        none none
        [("flow_type", .nat flowType), ("fiat_type", .nat fiat_type),
         ("response", .gen url_hash link)]
    else (none, db, cache)
  match created with
  | (dbTxn, db1, cache1) =>
    let key := "txn_onramp_" ++ url_hash
    let entry : TxnRec :=
      { transaction_id := key
        db_id := dbTxn.map (·.id)
        provider := "ONRAMP"
        status := "PENDING"
        url_hash := some url_hash
        widget_url := link
        created_at := some o.now
        flow_type := some flowStr
        source_currency := some source_currency
        destination_currency := some destination_currency
        amount := some source_amount
        network := some network }
    let cache2 := cacheSet cache1 key (.txn entry) 86400
    ({ httpStatus := 200, success := true, widgetUrl := link,
       transactionId := (match dbTxn with
         | some t => t.transaction_id
         | none => key),
       urlHash := url_hash }, db1, cache2)

/-- HTTP answer of a webhook handler. -/
structure WebhookResponse where
  httpStatus : Nat
  message : String
  deriving DecidableEq

/-- A webhook delivery as the OnRamp handler sees it: whether the
HMAC-SHA512 signature verified, whether reading the request raised, and
the JSON body. -/
structure OnrampWebhookRequest where
  sigValid : Bool := true
  parseRaises : Bool := false
  payload : OnrampPayload := {}
  deriving DecidableEq

/-- `status_mapping` of `onramp_webhook` (`onramp/views.py`). -/
def onramp_status_mapping : List (String × String) :=
  [("ON_CHAIN_COMPLETED", "COMPLETED"),
   ("FIAT_TRANSFER_COMPLETED", "COMPLETED"),
   ("4", "COMPLETED"),
   ("5", "COMPLETED"),
   ("15", "COMPLETED"),
   ("16", "COMPLETED"),
   ("14", "COMPLETED"),
   ("19", "COMPLETED"),
   ("20", "COMPLETED"),
   ("40", "COMPLETED"),
   ("41", "COMPLETED"),
   ("FIAT_DEPOSIT_RECEIVED", "PENDING"),
   ("TRADE_COMPLETED", "PENDING"),
   ("ON_CHAIN_INITIATED", "PENDING"),
   ("ON_CHAIN_DEPOSIT_RECEIVED", "PENDING"),
   ("FIAT_TRANSFER_INITIATED", "PENDING"),
   ("2", "PENDING"),
   ("3", "PENDING"),
   ("10", "PENDING"),
   ("11", "PENDING"),
   ("12", "PENDING"),
   ("13", "PENDING"),
   ("FAILED", "FAILED"),
   ("-1", "FAILED"),
   ("-2", "FAILED"),
   ("-3", "FAILED"),
   ("-4", "FAILED")]

/-- The cache-record mutation of `onramp_webhook` (step 5, cache side). -/
def onrampApplyToRec (o : Oracle) (d : OnrampPayload) (mapped status_value event_type : String)
    (rid : Nat) (r : TxnRec) : TxnRec :=
  { r with
    status := mapped
    updated_at := some o.now
    webhook_data := some (.onramp d)
    provider_status := some status_value
    onramp_reference_id := some rid
    event_type := some event_type
    failure_reason := if d.failureReasons ≠ "" then some d.failureReasons else r.failure_reason
    last_event_id := if natTruthy d.eventId then d.eventId else r.last_event_id
    last_event_time := if strTruthy d.eventCreatedAt then d.eventCreatedAt else r.last_event_time }

/-- The database mutation of `onramp_webhook` (step 5, database side):
status, reference id and `provider_data` merge applied unconditionally;
`completed_at` stamped whenever the mapped status is COMPLETED. -/
def onrampApplyToDb (o : Oracle) (d : OnrampPayload) (mapped event_type : String)
    (rid : Nat) (t : DbTxn) : DbTxn :=
  { t with
    status := mapped
    provider_reference_id := some rid
    provider_data :=
      pdSet (pdSet (pdSet t.provider_data "webhook_data" (.pay d))
        "last_event_id" (.onat d.eventId)) "event_type" (.str event_type)
    completed_at := if mapped = "COMPLETED" then some o.now else t.completed_at
    failure_reason := if d.failureReasons ≠ "" then some d.failureReasons else t.failure_reason }

/-- `onramp_webhook` of `onramp/views.py`: verify the signature (401 on
mismatch), drop duplicate event ids remembered for 7 days, map the
provider status, locate the cache record (direct keys first, then the
linear pending scan), mutate cache and - through the `db_id`
back-reference - the database row, and acknowledge with 200; the
top-level `except` also answers 200. -/
def onramp_webhook (o : Oracle) (req : OnrampWebhookRequest) (cache : Cache) (db : Db) :
    WebhookResponse × Cache × Db :=
  if ¬ req.sigValid then (⟨401, "Invalid signature"⟩, cache, db)
  else if req.parseRaises then (⟨200, "Webhook received but error in processing"⟩, cache, db)
  else
    let d := req.payload
    let event_type := pyUpper d.eventType
    let status_value := pyUpper d.statusValue
    let dupKey := "onramp_event_" ++ toString (d.eventId.getD 0)
    let isDup : Bool :=
      natTruthy d.eventId &&
        match cacheGet cache dupKey with
        | some v => cvTruthy v
        | none => false
    if isDup then (⟨200, "Duplicate event"⟩, cache, db)
    else
      let cache1 :=
        if natTruthy d.eventId then cacheSet cache dupKey (.flag true) 604800 else cache
      let mapped := lookupTabD onramp_status_mapping status_value "PENDING"
      if natTruthy d.referenceId then
        let rid := d.referenceId.getD 0
        let hit : Option (String × TxnRec) :=
          match cacheGetRec cache1 ("txn_onramp_" ++ toString rid) with
          | some r => some ("txn_onramp_" ++ toString rid, r)
          | none =>
            match cacheGetRec cache1 ("onramp_txn_" ++ toString rid) with
            | some r => some ("onramp_txn_" ++ toString rid, r)
            | none => firstPendingOnramp cache1
        match hit with
        | none => (⟨200, "Webhook processed"⟩, cache1, db)
        | some (k, r) =>
          let cache2 := cacheSet cache1 k (.txn (onrampApplyToRec o d mapped status_value event_type rid r)) 86400
          if natTruthy r.db_id then
            match db.filter (fun t => t.id = r.db_id.getD 0) with
            | [t] =>
              let t1 := onrampApplyToDb o d mapped event_type rid t
              (⟨200, "Webhook processed"⟩, cache2, db.map (fun x => if x.id = t.id then t1 else x))
            | [] => (⟨200, "Webhook processed"⟩, cache2, db)
            | _ :: _ :: _ => (⟨200, "Webhook received but error in processing"⟩, cache2, db)
          else (⟨200, "Webhook processed"⟩, cache2, db)
      else (⟨200, "Webhook processed"⟩, cache1, db)

/-- A webhook delivery as the FinchPay handler sees it. -/
structure FinchWebhookRequest where
  hasSignature : Bool := true
  sigMatches : Bool := true
  parseRaises : Bool := false
  payload : FinchPayload := {}
  deriving DecidableEq

/-- `status_mapping` of `finchpay_webhook` (`finchpay/views.py`). -/
def finchpay_status_mapping : List (String × String) :=
  [("CREATED", "PENDING"),
   ("PROCESSING", "PENDING"),
   ("SENDING", "PENDING"),
   ("HOLD", "PENDING"),
   ("COMPLETE", "COMPLETED"),
   ("COMPLETED", "COMPLETED"),
   ("REFUNDED", "FAILED"),
   ("ERROR", "FAILED"),
   ("EXPIRED", "FAILED"),
   ("REJECTED_BY_ANTI_FRAUD", "FAILED")]

/-- `finchpay_webhook` of `finchpay/views.py`: 401 without a valid
HMAC-SHA256 signature; update the cache record found under
`txn_finchpay_<external_id>`, or - when the lookup misses - create a fresh
cache record from the webhook payload; the top-level `except` answers
HTTP 500. No database write happens on this path. -/
def finchpay_webhook (o : Oracle) (req : FinchWebhookRequest) (cache : Cache) (db : Db) :
    WebhookResponse × Cache × Db :=
  if ¬ req.hasSignature then (⟨401, "Missing x-signature header"⟩, cache, db)
  else if ¬ req.sigMatches then (⟨401, "Invalid signature"⟩, cache, db)
  else if req.parseRaises then (⟨500, "Webhook processing failed"⟩, cache, db)
  else
    let d := req.payload
    let webhook_status := pyUpper d.status
    let mapped := lookupTabD finchpay_status_mapping webhook_status "PENDING"
    if strTruthy d.externalId then
      let key := "txn_finchpay_" ++ d.externalId.getD ""
      match cacheGetRec cache key with
      | some r =>
        let r1 : TxnRec :=
          { r with
            status := mapped
            updated_at := some o.now
            webhook_data := some (.finch d)
            provider_status := some webhook_status
            finchpay_transaction_id := d.pid
            transaction_hash := d.transactionHash
            payment_method := d.paymentMethod
            partner_profit_amount := d.partnerProfitAmount
            partner_profit_currency := d.partnerProfitCurrency
            amount_from := d.amountFrom
            amount_to := d.amountTo
            asset_from := d.assetFrom
            asset_to := d.assetTo
            asset_network_to := d.assetNetworkTo
            event_time := d.eventTime
            side := d.side }
        (⟨200, "Webhook processed successfully"⟩, cacheSet cache key (.txn r1) 86400, db)
      | none =>
        let nr : TxnRec :=
          { transaction_id := key
            external_id := d.externalId
            provider := "FINCHPAY"
            status := mapped
            created_at := some o.now
            updated_at := some o.now
            webhook_data := some (.finch d)
            provider_status := some webhook_status
            finchpay_transaction_id := d.pid
            transaction_hash := d.transactionHash
            payment_method := d.paymentMethod
            amount_from := d.amountFrom
            amount_to := d.amountTo
            asset_from := d.assetFrom
            asset_to := d.assetTo
            asset_network_to := d.assetNetworkTo }
        (⟨200, "Webhook processed successfully"⟩, cacheSet cache key (.txn nr) 86400, db)
    else (⟨200, "Webhook processed successfully"⟩, cache, db)

/-- HTTP answer of the status-poll endpoint. -/
structure PollResponse where
  httpStatus : Nat
  success : Bool
  statusStr : String
  deriving DecidableEq

/-- `status_map` of the OnRamp API branch of `get_transaction_status`
(`meld/views.py`). -/
def meld_poll_status_map : List (String × String) :=
  [("COMPLETED", "COMPLETED"),
   ("SUCCESS", "COMPLETED"),
   ("SUCCESSFUL", "COMPLETED"),
   ("FAILED", "FAILED"),
   ("CANCELLED", "FAILED"),
   ("EXPIRED", "FAILED"),
   ("PENDING", "PENDING"),
   ("PROCESSING", "PENDING"),
   ("INITIATED", "PENDING")]

/-- `get_transaction_status` of `meld/views.py` (the status poller; the
spec calls it `check_transaction_status`). `apiRaw` is the status string
OnRamp's get-status API returned, `none` when the call was not made, not
2xx, reported failure, or raised (that branch swallows its exceptions).
A PENDING record with no webhook update within the 2-minute window is
re-checked; a record still PENDING more than 30 minutes after creation is
force-set to TIMEOUT and persisted. -/
def get_transaction_status (o : Oracle) (cache : Cache)
    (transactionId customerId : Option String) (apiRaw : Option String) :
    PollResponse × Cache :=
  if ¬ (strTruthy transactionId ∨ strTruthy customerId) then
    (⟨400, false, ""⟩, cache)
  else
    let tidOpt : Option String :=
      if ¬ strTruthy transactionId ∧ strTruthy customerId then
        match cacheGet cache ("customer_" ++ customerId.getD "" ++ "_latest") with
        | some (.str s) => some s
        | _ => none
      else transactionId
    if ¬ strTruthy tidOpt then (⟨200, true, "NOT_FOUND"⟩, cache)
    else
      let tid := tidOpt.getD ""
      match cacheGetRec cache tid with
      | none => (⟨200, true, "NOT_FOUND"⟩, cache)
      | some r =>
        let provider := pyUpper r.provider
        let cur0 := r.status
        let shouldCheck :=
          cur0 = "PENDING" ∧ (r.updated_at = none ∨ o.now - r.updated_at.getD 0 > 120000)
        if ¬ shouldCheck then (⟨200, true, cur0⟩, cache)
        else
          let afterApi : TxnRec × Cache × String :=
            if provider = "ONRAMP" then
              match apiRaw with
              | some raw =>
                let onrampStatus := pyUpper raw
                let newStatus := lookupTabD meld_poll_status_map onrampStatus "PENDING"
                if newStatus ≠ cur0 then
                  let r1 : TxnRec :=
                    { r with
                      status := newStatus
                      provider_status := some onrampStatus
                      updated_at := some o.now
                      updated_via := some "API_POLL" }
                  (r1, cacheSet cache tid (.txn r1) 86400, newStatus)
                else (r, cache, cur0)
              | none => (r, cache, cur0)
            else (r, cache, cur0)
          match afterApi with
          | (r1, cache1, cur1) =>
            if o.now - r1.created_at.getD o.now > 1800000 ∧ cur1 = "PENDING" then
              let r2 : TxnRec := { r1 with status := "TIMEOUT", updated_at := some o.now }
              (⟨200, true, "TIMEOUT"⟩, cacheSet cache1 tid (.txn r2) 86400)
            else (⟨200, true, cur1⟩, cache1)

/-- The cache binding at a key, TTL included. -/
def cacheGetEntry (c : Cache) (k : String) : Option CacheBinding :=
  match c with
  | [] => none
  | b :: rest => if b.key = k then some b else cacheGetEntry rest k

/-! ## Cache lemmas -/

theorem cacheGet_set_same (c : Cache) (k : String) (v : CacheVal) (ttl : Nat) :
    cacheGet (cacheSet c k v ttl) k = some v := by
  induction c with
  | nil => simp [cacheSet, cacheGet]
  | cons b rest ih =>
    by_cases hb : b.key = k
    · simp [cacheSet, cacheGet, hb]
    · simp [cacheSet, cacheGet, hb, ih]

theorem cacheGet_set_ne (c : Cache) (k k2 : String) (v : CacheVal) (ttl : Nat)
    (h : k2 ≠ k) : cacheGet (cacheSet c k v ttl) k2 = cacheGet c k2 := by
  have h2 : ¬ k = k2 := fun he => h he.symm
  induction c with
  | nil => simp [cacheSet, cacheGet, h2]
  | cons b rest ih =>
    by_cases hb : b.key = k
    · simp [cacheSet, cacheGet, hb, h2, h]
    · by_cases hb2 : b.key = k2 <;> simp [cacheSet, cacheGet, hb, hb2, h2, h, ih]

theorem cacheGetEntry_set_same (c : Cache) (k : String) (v : CacheVal) (ttl : Nat) :
    cacheGetEntry (cacheSet c k v ttl) k = some ⟨k, v, ttl⟩ := by
  induction c with
  | nil => simp [cacheSet, cacheGetEntry]
  | cons b rest ih =>
    by_cases hb : b.key = k
    · simp [cacheSet, cacheGetEntry, hb]
    · simp [cacheSet, cacheGetEntry, hb, ih]

theorem cacheGetEntry_set_ne (c : Cache) (k k2 : String) (v : CacheVal) (ttl : Nat)
    (h : k2 ≠ k) : cacheGetEntry (cacheSet c k v ttl) k2 = cacheGetEntry c k2 := by
  have h2 : ¬ k = k2 := fun he => h he.symm
  induction c with
  | nil => simp [cacheSet, cacheGetEntry, h2]
  | cons b rest ih =>
    by_cases hb : b.key = k
    · simp [cacheSet, cacheGetEntry, hb, h2, h]
    · by_cases hb2 : b.key = k2 <;> simp [cacheSet, cacheGetEntry, hb, hb2, h2, h, ih]

theorem cacheGetRec_set_txn_same (c : Cache) (k : String) (r : TxnRec) (ttl : Nat) :
    cacheGetRec (cacheSet c k (.txn r) ttl) k = some r := by
  simp [cacheGetRec, cacheGet_set_same]

theorem cacheGetRec_set_ne (c : Cache) (k k2 : String) (v : CacheVal) (ttl : Nat)
    (h : k2 ≠ k) : cacheGetRec (cacheSet c k v ttl) k2 = cacheGetRec c k2 := by
  simp [cacheGetRec, cacheGet_set_ne _ _ _ _ _ h]

/-- The direct-lookup cache key of the OnRamp webhook is never the event
dedup key: the two literal heads differ. -/
theorem txnKey_ne_eventKey (a b : String) :
    ("txn_onramp_" ++ a) ≠ ("onramp_event_" ++ b) := by
  intro h
  have h2 : ("txn_onramp_" ++ a).data = ("onramp_event_" ++ b).data := by rw [h]
  rw [String.data_append, String.data_append] at h2
  have h3 : (some 't' : Option Char) = some 'o' := congrArg List.head? h2
  simp at h3

end Bitexly

namespace Bitexly

/-! ## Claim C3 -/

/-- Claim C3, counterexample: the LetsExchange parser does not map
`"USDTTRC20"` to `(USDT, TRC20)` — its tables use Changelly-style codes
(`USDTRX`), so `"USDTTRC20"` falls through to the warned fallback. -/
theorem C3_counterexample :
    parse_coin_and_network_letsexchange "USDTTRC20" = (("USDTTRC20", "USDTTRC20"), true) ∧
    (("USDTTRC20", "USDTTRC20") : String × String) ≠ ("USDT", "TRC20") := by
  decide

/-- Claim C3 (amended): covered composite tickers parse to the documented
pairs — LetsExchange maps `"USDTRX"` to `(USDT, TRC20)` and `"BTC"` to
`(BTC, BTC)`, Exolix maps `"USDTTRC20"` to `(USDT, TRX)` — and any code
reaching neither tier returns `(code.upper, code.upper)` with a warning
flag instead of an exception, for both parsers. -/
theorem C3_parser_tables :
    parse_coin_and_network_letsexchange "USDTRX" = (("USDT", "TRC20"), false) ∧
    parse_coin_and_network_letsexchange "BTC" = (("BTC", "BTC"), false) ∧
    parse_coin_and_network "USDTTRC20" = (("USDT", "TRX"), false) ∧
    (∀ code, (parse_coin_and_network_letsexchange code).2 = true →
      (parse_coin_and_network_letsexchange code).1 = (pyUpper code, pyUpper code)) ∧
    (∀ code, (parse_coin_and_network code).2 = true →
      (parse_coin_and_network code).1 = (pyUpper code, pyUpper code)) := by
  refine ⟨by decide, by decide, by decide, ?_, ?_⟩
  · intro code h
    simp only [parse_coin_and_network_letsexchange] at h ⊢
    cases hm : letsxTryMultiChain (pyUpper code) letsxMultiChainTable with
    | some p => simp [hm] at h
    | none =>
      cases hn : lookupTab letsxNativeTable (pyUpper code) with
      | some nw => simp [hm, hn] at h
      | none => simp [hm, hn]
  · intro code h
    simp only [parse_coin_and_network] at h ⊢
    cases he : lookupTab exolixExactTable (pyUpper code) with
    | some p => simp [he] at h
    | none =>
      cases hs : firstSuffixMatch (pyUpper code) exolixSuffixTable with
      | some p => simp [he, hs] at h
      | none =>
        cases hn : lookupTab exolixNativeTable (pyUpper code) with
        | some p => simp [he, hs, hn] at h
        | none => simp [he, hs, hn]

/-- Claim C3, witness: the fallback clause evaluated at the uncovered
code `"ZZZTOKEN"`. -/
theorem C3_witness :
    parse_coin_and_network_letsexchange "USDTRX" = (("USDT", "TRC20"), false) ∧
    (parse_coin_and_network_letsexchange "ZZZTOKEN").1 =
      (pyUpper "ZZZTOKEN", pyUpper "ZZZTOKEN") :=
  ⟨C3_parser_tables.1, C3_parser_tables.2.2.2.1 "ZZZTOKEN" (by decide)⟩

/-! ## Claim C4 -/

/-- Claim C4, counterexample: the Exolix suffix tier applies a suffix even
when stripping it leaves an empty prefix — `"TRC20"` parses to
`("", "TRX")`, while the spec's first-nonempty-prefix rule would fall
through to the warned fallback `("TRC20", "TRC20")`. -/
theorem C4_counterexample :
    parse_coin_and_network "TRC20" = (("", "TRX"), false) ∧
    parse_coin_and_network_spec "TRC20" = (("TRC20", "TRC20"), true) ∧
    parse_coin_and_network "TRC20" ≠ parse_coin_and_network_spec "TRC20" := by
  decide

/-- Claim C4 (amended): in the suffix-strip tier, the first suffix in
table order that the code ends with wins, with no requirement that the
remaining prefix be non-empty; the (possibly empty) remainder becomes the
base coin. -/
theorem C4_suffix_strip :
    ∀ (code suf nw : String),
      lookupTab exolixExactTable (pyUpper code) = none →
      firstSuffixMatch (pyUpper code) exolixSuffixTable = some (suf, nw) →
      parse_coin_and_network code = ((strDropRight (pyUpper code) suf.length, nw), false) := by
  intro code suf nw he hs
  simp [parse_coin_and_network, he, hs]

/-- Claim C4, witness: the amended rule evaluated at `"TRC20"`, whose
remainder after stripping is empty. -/
theorem C4_witness :
    parse_coin_and_network "TRC20" =
      ((strDropRight (pyUpper "TRC20") ("TRC20" : String).length, "TRX"), false) :=
  C4_suffix_strip "TRC20" "TRC20" "TRX" (by decide) (by decide)

/-! ## Claim C1 -/

/-- Claim C1, counterexample: a later OnRamp webhook whose provider status
maps to PENDING (`TRADE_COMPLETED`) overwrites a COMPLETED cache entry and
database row back to PENDING - COMPLETED is not terminal. -/
theorem C1_counterexample :
    (let r0 : TxnRec := { transaction_id := "txn_onramp_42", db_id := some 1, provider := "ONRAMP", status := "COMPLETED", url_hash := some "42" }
     let t0 : DbTxn := { id := 1, transaction_id := "txn_onramp_abc", provider := "ONRAMP", status := "COMPLETED", completed_at := some 2000 }
     let w := onramp_webhook { now := 6000 } { payload := { referenceId := some 42, eventType := "ONRAMP", statusValue := "TRADE_COMPLETED", eventId := some 9 } } [⟨"txn_onramp_42", .txn r0, 86400⟩] [t0]
     (cacheGetRec w.2.1 "txn_onramp_42").map (·.status) = some "PENDING" ∧
       w.2.2.map (·.status) = ["PENDING"]) ∧
    ("PENDING" : String) ≠ "COMPLETED" := by
  decide

/-- Claim C1 (amended): no terminal-state guard exists.
`update_transaction_status` applies any truthy status argument
unconditionally, so a row whose status is COMPLETED or FAILED is
overwritten to `status.upper()` - in particular by a later PENDING. -/
theorem C1_no_terminal_guard :
    ∀ (o : Oracle) (db : Db) (t : DbTxn) (s : String),
      db.filter (fun x => x.transaction_id = t.transaction_id) = [t] →
      t.transaction_id ≠ "" →
      (t.status = "COMPLETED" ∨ t.status = "FAILED") →
      s ≠ "" →
      o.saveRaises = false →
      ((update_transaction_status o db (some t.transaction_id) none (some s)
          none none none none).1.map (·.status)) = some (pyUpper s) := by
  intro o db t s hf ht hterm hs hsave
  have htb : strTruthy (some t.transaction_id) = true := by simp [strTruthy, ht]
  have hsb : strTruthy (some s) = true := by simp [strTruthy, hs]
  have hb : dbGet db (fun x => x.transaction_id = t.transaction_id) = .found t := by
    simp [dbGet, hf]
  simp only [update_transaction_status, htb, Option.getD_some, if_true, hb]
  simp only [updateApply, hsb, hsave, Option.isSome_none]
  by_cases hc : pyUpper s = "COMPLETED" ∧ t.completed_at = none <;> simp [hc, strTruthy]

/-- Claim C1, witness: a COMPLETED row overwritten to PENDING by the
amended rule. -/
theorem C1_witness :
    ((update_transaction_status { now := 9 } [{ id := 1, transaction_id := "t1", status := "COMPLETED", completed_at := some 5 }] (some "t1") none (some "pending") none none none none).1.map (·.status)) = some (pyUpper "pending") := by
  exact C1_no_terminal_guard { now := 9 }
    [{ id := 1, transaction_id := "t1", status := "COMPLETED", completed_at := some 5 }]
    { id := 1, transaction_id := "t1", status := "COMPLETED", completed_at := some 5 }
    "pending" (by decide) (by decide) (Or.inl rfl) (by decide) rfl

/-! ## Claim C5 -/

/-- Claim C5, counterexample: an exception inside FinchPay webhook
processing is answered with HTTP 500, not 200. -/
theorem C5_counterexample :
    (finchpay_webhook { now := 0 } { parseRaises := true } [] []).1.httpStatus = 500 ∧
    (500 : Nat) ≠ 200 := by
  decide

/-- Claim C5 (amended): the OnRamp webhook converts a processing exception
into an HTTP 200 acknowledgment with state unchanged, but the FinchPay
webhook answers HTTP 500 on an exception - there the failure is surfaced
to the provider, not hidden. -/
theorem C5_exception_handling :
    ∀ (o o2 : Oracle) (req : OnrampWebhookRequest) (freq : FinchWebhookRequest)
      (c c2 : Cache) (db db2 : Db),
      req.sigValid = true → req.parseRaises = true →
      freq.hasSignature = true → freq.sigMatches = true → freq.parseRaises = true →
      (onramp_webhook o req c db).1.httpStatus = 200 ∧
      (onramp_webhook o req c db).2 = (c, db) ∧
      (finchpay_webhook o2 freq c2 db2).1.httpStatus = 500 ∧
      (finchpay_webhook o2 freq c2 db2).2 = (c2, db2) := by
  intro o o2 req freq c c2 db db2 h1 h2 h3 h4 h5
  simp [onramp_webhook, finchpay_webhook, h1, h2, h3, h4, h5]

/-- Claim C5, witness: the two exception outcomes at a concrete delivery. -/
theorem C5_witness :
    (onramp_webhook { now := 3 } { parseRaises := true } [] []).1.httpStatus = 200 ∧
    (onramp_webhook { now := 3 } { parseRaises := true } [] []).2 = (([] : Cache), ([] : Db)) ∧
    (finchpay_webhook { now := 4 } { parseRaises := true } [] []).1.httpStatus = 500 ∧
    (finchpay_webhook { now := 4 } { parseRaises := true } [] []).2 = (([] : Cache), ([] : Db)) :=
  C5_exception_handling { now := 3 } { now := 4 } { parseRaises := true }
    { parseRaises := true } [] [] [] [] rfl rfl rfl rfl rfl

/-! ## Claim C6 -/

/-- Claim C6, counterexample: a FinchPay webhook that cannot be correlated
(empty cache) is not discarded - the handler creates a fresh cache entry
from the webhook payload. -/
theorem C6_counterexample :
    (let w := finchpay_webhook { now := 70 } { payload := { pid := some "f9", status := "COMPLETE", externalId := some "e1" } } [] []
     w.1.httpStatus = 200 ∧ w.2.1 ≠ ([] : Cache) ∧
       (cacheGetRec w.2.1 "txn_finchpay_e1").isSome = true) := by
  decide

/-- Claim C6 (amended): on correlation failure the OnRamp handler falls
back to the linear scan over cached `txn_onramp_*` keys and updates the
first PENDING OnRamp record it finds (acknowledging 200 with no record
touched when the scan also fails), while the FinchPay handler creates a
fresh cache entry from the webhook payload instead of discarding it. -/
theorem C6_correlation_failure :
    (∀ (o : Oracle) (req : OnrampWebhookRequest) (c : Cache) (db : Db)
       (rid : Nat) (k : String) (r : TxnRec),
      req.sigValid = true → req.parseRaises = false →
      req.payload.eventId = none →
      req.payload.referenceId = some rid → rid ≠ 0 →
      cacheGetRec c ("txn_onramp_" ++ toString rid) = none →
      cacheGetRec c ("onramp_txn_" ++ toString rid) = none →
      firstPendingOnramp c = some (k, r) →
      natTruthy r.db_id = false →
      (onramp_webhook o req c db).1.httpStatus = 200 ∧
      (onramp_webhook o req c db).2.2 = db ∧
      cacheGetRec (onramp_webhook o req c db).2.1 k =
        some (onrampApplyToRec o req.payload
          (lookupTabD onramp_status_mapping (pyUpper req.payload.statusValue) "PENDING")
          (pyUpper req.payload.statusValue) (pyUpper req.payload.eventType) rid r)) ∧
    (∀ (o : Oracle) (req : OnrampWebhookRequest) (c : Cache) (db : Db) (rid : Nat),
      req.sigValid = true → req.parseRaises = false →
      req.payload.eventId = none →
      req.payload.referenceId = some rid → rid ≠ 0 →
      cacheGetRec c ("txn_onramp_" ++ toString rid) = none →
      cacheGetRec c ("onramp_txn_" ++ toString rid) = none →
      firstPendingOnramp c = none →
      onramp_webhook o req c db = (⟨200, "Webhook processed"⟩, c, db)) ∧
    (∀ (o : Oracle) (freq : FinchWebhookRequest) (c : Cache) (db : Db) (eid : String),
      freq.hasSignature = true → freq.sigMatches = true → freq.parseRaises = false →
      freq.payload.externalId = some eid → eid ≠ "" →
      cacheGetRec c ("txn_finchpay_" ++ eid) = none →
      (finchpay_webhook o freq c db).1.httpStatus = 200 ∧
      (finchpay_webhook o freq c db).2.2 = db ∧
      ((cacheGetRec (finchpay_webhook o freq c db).2.1 ("txn_finchpay_" ++ eid)).map
        (fun nr => (nr.provider, nr.status, nr.db_id))) =
        some ("FINCHPAY",
          lookupTabD finchpay_status_mapping (pyUpper freq.payload.status) "PENDING", none)) := by
  have hne : natTruthy none = false := rfl
  refine ⟨?_, ?_, ?_⟩
  · intro o req c db rid k r h1 h2 h3 h4 h5 h6 h7 h8 h9
    have hrb : natTruthy (some rid) = true := by simp [natTruthy, h5]
    simp only [onramp_webhook, h1, h2, h3, h4, hne, hrb, h6, h7, h8, h9]
    simp [h6, h7, h8, h9, cacheGetRec_set_txn_same]
  · intro o req c db rid h1 h2 h3 h4 h5 h6 h7 h8
    have hrb : natTruthy (some rid) = true := by simp [natTruthy, h5]
    simp only [onramp_webhook, h1, h2, h3, h4, hne, hrb, h6, h7, h8]
    simp [h6, h7, h8]
  · intro o freq c db eid h1 h2 h3 h4 h5 h6
    have heb : strTruthy (some eid) = true := by simp [strTruthy, h5]
    simp only [finchpay_webhook, h1, h2, h3, h4, heb, h6]
    simp [h6, cacheGetRec_set_txn_same]

/-- Claim C6, witness: the three correlation-failure outcomes at concrete
deliveries. -/
theorem C6_witness :
    (let c0 : Cache := [⟨"txn_onramp_x", .txn { transaction_id := "txn_onramp_x", provider := "ONRAMP", status := "PENDING" }, 86400⟩]
     let req0 : OnrampWebhookRequest := { payload := { referenceId := some 7, statusValue := "FAILED" } }
     (onramp_webhook { now := 8 } req0 c0 []).1.httpStatus = 200 ∧
     (onramp_webhook { now := 8 } req0 c0 []).2.2 = ([] : Db) ∧
     cacheGetRec (onramp_webhook { now := 8 } req0 c0 []).2.1 "txn_onramp_x" =
       some (onrampApplyToRec { now := 8 } req0.payload
         (lookupTabD onramp_status_mapping (pyUpper req0.payload.statusValue) "PENDING")
         (pyUpper req0.payload.statusValue) (pyUpper req0.payload.eventType) 7
         { transaction_id := "txn_onramp_x", provider := "ONRAMP", status := "PENDING" })) ∧
    (onramp_webhook { now := 9 } { payload := { referenceId := some 7, statusValue := "FAILED" } } [] [] =
      (⟨200, "Webhook processed"⟩, ([] : Cache), ([] : Db))) ∧
    (let freq0 : FinchWebhookRequest := { payload := { pid := some "f9", status := "COMPLETE", externalId := some "e1" } }
     (finchpay_webhook { now := 70 } freq0 [] []).1.httpStatus = 200 ∧
     (finchpay_webhook { now := 70 } freq0 [] []).2.2 = ([] : Db) ∧
     ((cacheGetRec (finchpay_webhook { now := 70 } freq0 [] []).2.1 "txn_finchpay_e1").map
       (fun nr => (nr.provider, nr.status, nr.db_id))) =
       some ("FINCHPAY", lookupTabD finchpay_status_mapping (pyUpper freq0.payload.status) "PENDING", none)) := by
  refine ⟨?_, ?_, ?_⟩
  · exact C6_correlation_failure.1 { now := 8 }
      { payload := { referenceId := some 7, statusValue := "FAILED" } }
      [⟨"txn_onramp_x", .txn { transaction_id := "txn_onramp_x", provider := "ONRAMP", status := "PENDING" }, 86400⟩]
      [] 7 "txn_onramp_x"
      { transaction_id := "txn_onramp_x", provider := "ONRAMP", status := "PENDING" }
      rfl rfl rfl rfl (by decide) (by decide) (by decide) (by decide) (by decide)
  · exact C6_correlation_failure.2.1 { now := 9 }
      { payload := { referenceId := some 7, statusValue := "FAILED" } } [] [] 7
      rfl rfl rfl rfl (by decide) (by decide) (by decide) rfl
  · exact C6_correlation_failure.2.2 { now := 70 }
      { payload := { pid := some "f9", status := "COMPLETE", externalId := some "e1" } }
      [] [] "e1" rfl rfl rfl rfl (by decide) rfl

/-! ## Claim C7 -/

/-- Claim C7, counterexample: a second COMPLETED-mapped OnRamp webhook
with a fresh event id re-stamps the linked row's `completed_at` - the
already-set value 2000 is overwritten with the current time 5000. -/
theorem C7_counterexample :
    (let r0 : TxnRec := { transaction_id := "txn_onramp_42", db_id := some 1, provider := "ONRAMP", status := "COMPLETED", url_hash := some "42" }
     let t0 : DbTxn := { id := 1, transaction_id := "txn_onramp_abc", provider := "ONRAMP", status := "COMPLETED", completed_at := some 2000 }
     let w := onramp_webhook { now := 5000 } { payload := { referenceId := some 42, eventType := "ONRAMP", statusValue := "ON_CHAIN_COMPLETED", eventId := some 6 } } [⟨"txn_onramp_42", .txn r0, 86400⟩] [t0]
     w.2.2.map (·.completed_at) = [some 5000]) ∧
    some (5000 : Nat) ≠ some 2000 := by
  decide

/-- Claim C7 (amended): `update_transaction_status` sets `completed_at`
only on the first transition to COMPLETED (an already-set value is kept),
but the OnRamp webhook's direct database update stamps
`completed_at := now` on every COMPLETED-mapped webhook, overwriting an
already-set value. -/
theorem C7_completed_at :
    (∀ (o : Oracle) (db : Db) (t : DbTxn),
      db.filter (fun x => x.transaction_id = t.transaction_id) = [t] →
      t.transaction_id ≠ "" → o.saveRaises = false →
      ((update_transaction_status o db (some t.transaction_id) none
          (some "COMPLETED") none none none none).1.map (·.completed_at)) =
        some (if t.completed_at = none then some o.now else t.completed_at)) ∧
    (∀ (o : Oracle) (d : OnrampPayload) (et : String) (rid : Nat) (t : DbTxn),
      (onrampApplyToDb o d "COMPLETED" et rid t).completed_at = some o.now) := by
  constructor
  · intro o db t hf ht hsave
    have htb : strTruthy (some t.transaction_id) = true := by simp [strTruthy, ht]
    have hcb : strTruthy (some "COMPLETED") = true := by decide
    have hp : pyUpper "COMPLETED" = "COMPLETED" := by decide
    have hb : dbGet db (fun x => x.transaction_id = t.transaction_id) = .found t := by
      simp [dbGet, hf]
    simp only [update_transaction_status, htb, Option.getD_some, if_true, hb]
    simp only [updateApply, hcb, hp, hsave, Option.isSome_none]
    by_cases hc : t.completed_at = none <;> simp [hc, strTruthy, hp]
  · intro o d et rid t
    simp [onrampApplyToDb]

/-- Claim C7, witness: the first transition stamps `completed_at`; the
webhook's database update re-stamps it. -/
theorem C7_witness :
    ((update_transaction_status { now := 9 } [{ id := 1, transaction_id := "t1", status := "PENDING" }] (some "t1") none (some "COMPLETED") none none none none).1.map (·.completed_at)) =
      some (if ({ id := 1, transaction_id := "t1", status := "PENDING" } : DbTxn).completed_at = none then some ((9 : Nat)) else ({ id := 1, transaction_id := "t1", status := "PENDING" } : DbTxn).completed_at) ∧
    (onrampApplyToDb { now := 77 } {} "COMPLETED" "ONRAMP" 42 { id := 1, transaction_id := "t1", status := "COMPLETED", completed_at := some 2000 }).completed_at = some 77 := by
  constructor
  · exact C7_completed_at.1 { now := 9 }
      [{ id := 1, transaction_id := "t1", status := "PENDING" }]
      { id := 1, transaction_id := "t1", status := "PENDING" }
      (by decide) (by decide) rfl
  · exact C7_completed_at.2 { now := 77 } {} "ONRAMP" 42
      { id := 1, transaction_id := "t1", status := "COMPLETED", completed_at := some 2000 }

/-! ## Claim C9 -/

/-- Claim C9: a cached transaction still PENDING, with no webhook update
inside the 2-minute freshness window, created more than 30 minutes ago
(and with nothing fresh from the provider poll), is force-set to the
TIMEOUT pseudo-status, returned as TIMEOUT, and persisted back to the
cache entry. -/
theorem C9_poll_timeout :
    ∀ (o : Oracle) (cache : Cache) (tid : String) (r : TxnRec)
      (apiRaw : Option String) (ca : Nat),
      tid ≠ "" →
      cacheGetRec cache tid = some r →
      r.status = "PENDING" →
      (r.updated_at = none ∨ o.now - r.updated_at.getD 0 > 120000) →
      r.created_at = some ca →
      o.now - ca > 1800000 →
      (pyUpper r.provider = "ONRAMP" → apiRaw = none) →
      (get_transaction_status o cache (some tid) none apiRaw).1 = ⟨200, true, "TIMEOUT"⟩ ∧
      cacheGetRec (get_transaction_status o cache (some tid) none apiRaw).2 tid =
        some { r with status := "TIMEOUT", updated_at := some o.now } := by
  intro o cache tid r apiRaw ca htid hrec hst hup hca hage hapi
  have hapi2 : apiRaw = none ∨ pyUpper r.provider ≠ "ONRAMP" := by
    by_cases hpr : pyUpper r.provider = "ONRAMP"
    · exact Or.inl (hapi hpr)
    · exact Or.inr hpr
  rcases hup with hup | hup <;> rcases hapi2 with ha | ha <;>
    simp [get_transaction_status, strTruthy, htid, hrec, hst, hup, ha, hca, hage,
      cacheGetRec_set_txn_same]

/-- Claim C9, witness: a PENDING Meld record created at time 0 polled at
time 1800001 ms. -/
theorem C9_witness :
    (get_transaction_status { now := 1800001 } [⟨"txn_meld_1", .txn { transaction_id := "txn_meld_1", provider := "MELD", status := "PENDING", created_at := some 0 }, 86400⟩] (some "txn_meld_1") none none).1 = ⟨200, true, "TIMEOUT"⟩ ∧
    cacheGetRec (get_transaction_status { now := 1800001 } [⟨"txn_meld_1", .txn { transaction_id := "txn_meld_1", provider := "MELD", status := "PENDING", created_at := some 0 }, 86400⟩] (some "txn_meld_1") none none).2 "txn_meld_1" =
      some { ({ transaction_id := "txn_meld_1", provider := "MELD", status := "PENDING", created_at := some 0 } : TxnRec) with status := "TIMEOUT", updated_at := some 1800001 } := by
  exact C9_poll_timeout { now := 1800001 }
    [⟨"txn_meld_1", .txn { transaction_id := "txn_meld_1", provider := "MELD", status := "PENDING", created_at := some 0 }, 86400⟩]
    "txn_meld_1"
    { transaction_id := "txn_meld_1", provider := "MELD", status := "PENDING", created_at := some 0 }
    none 0 (by decide) (by decide) rfl (Or.inl rfl) rfl (by decide) (fun _ => rfl)

/-! ## Claim C10 -/

/-- Claim C10: the transaction helpers never raise - a failing database
write during creation, an anonymous `user`, a failing save during update,
or a failing lookup each yield `None` with persistent state untouched;
and an authenticated generate-URL call whose database write fails still
answers success, backed only by the cache entry (whose `db_id` stays
`None`). -/
theorem C10_helpers_return_none :
    (∀ (o : Oracle) (db : Db) (cache : Cache) (user : Option Nat)
       (p tt sc : String) (sa : Option String) (dc : String)
       (da er tf nf sf nw wa pm wu pti : Option String) (pri : Option Nat)
       (th : Option String) (pd : List (String × PVal)),
      o.createRaises = true →
      create_transaction_record o db cache user p tt sc sa dc da er tf nf sf nw wa pm wu pti pri th pd = (none, db, cache)) ∧
    (∀ (o : Oracle) (db : Db) (cache : Cache) (p tt sc : String) (sa : Option String) (dc : String)
       (da er tf nf sf nw wa pm wu pti : Option String) (pri : Option Nat)
       (th : Option String) (pd : List (String × PVal)),
      create_transaction_record o db cache none p tt sc sa dc da er tf nf sf nw wa pm wu pti pri th pd = (none, db, cache)) ∧
    (∀ (o : Oracle) (db : Db) (tid pti st da th fr : Option String)
       (pd : Option (List (String × PVal))),
      o.saveRaises = true →
      update_transaction_status o db tid pti st da th fr pd = (none, db)) ∧
    (∀ (o : Oracle) (db : Db) (tid pti : Option String) (user : Option Nat),
      o.findRaises = true →
      find_transaction o db tid pti user = none) ∧
    (∀ (o : Oracle) (db : Db) (cache : Cache) (uid flowType fiat : Nat)
       (sc sa dc nw uh : String) (link : Option String),
      o.createRaises = true →
      (generate_onramp_url o db cache (some uid) flowType sc sa dc nw fiat uh link).1.success = true ∧
      (generate_onramp_url o db cache (some uid) flowType sc sa dc nw fiat uh link).1.transactionId = "txn_onramp_" ++ uh ∧
      (generate_onramp_url o db cache (some uid) flowType sc sa dc nw fiat uh link).2.1 = db ∧
      ((cacheGetRec (generate_onramp_url o db cache (some uid) flowType sc sa dc nw fiat uh link).2.2 ("txn_onramp_" ++ uh)).map (·.db_id)) = some none) := by
  refine ⟨?_, ?_, ?_, ?_, ?_⟩
  · intro o db cache user p tt sc sa dc da er tf nf sf nw wa pm wu pti pri th pd h
    cases user <;> simp [create_transaction_record, h]
  · intro o db cache p tt sc sa dc da er tf nf sf nw wa pm wu pti pri th pd
    rfl
  · intro o db tid pti st da th fr pd h
    have hA : ∀ t : DbTxn, updateApply o db t st da th fr pd = (none, db) := by
      intro t
      simp [updateApply, h]
    simp only [update_transaction_status]
    split
    · rfl
    · exact hA _
    · split
      · split
        · rfl
        · rfl
        · exact hA _
      · rfl
  · intro o db tid pti user h
    simp [find_transaction, h]
  · intro o db cache uid flowType fiat sc sa dc nw uh link h
    simp [generate_onramp_url, should_save_transaction, create_transaction_record, h,
      cacheGetRec_set_txn_same]

/-- Claim C10, witness: every failure mode evaluated at concrete inputs. -/
theorem C10_witness :
    (create_transaction_record { createRaises := true } [] [] (some 7) "ONRAMP" "BUY" "USD" (some "100") "BTC" none none none none none none none none none none none none [] = (none, [], [])) ∧
    (create_transaction_record {} [] [] none "ONRAMP" "BUY" "USD" (some "100") "BTC" none none none none none none none none none none none none [] = (none, [], [])) ∧
    (update_transaction_status { saveRaises := true } [{ id := 1, transaction_id := "t1", status := "PENDING" }] (some "t1") none (some "COMPLETED") none none none none = (none, [{ id := 1, transaction_id := "t1", status := "PENDING" }])) ∧
    (find_transaction { findRaises := true } [{ id := 1, transaction_id := "t1", status := "PENDING" }] (some "t1") none none = none) ∧
    ((generate_onramp_url { createRaises := true } [] [] (some 7) 1 "USD" "100" "BTC" "BTC" 1 "h9" none).1.success = true ∧
     (generate_onramp_url { createRaises := true } [] [] (some 7) 1 "USD" "100" "BTC" "BTC" 1 "h9" none).1.transactionId = "txn_onramp_" ++ "h9" ∧
     (generate_onramp_url { createRaises := true } [] [] (some 7) 1 "USD" "100" "BTC" "BTC" 1 "h9" none).2.1 = ([] : Db) ∧
     ((cacheGetRec (generate_onramp_url { createRaises := true } [] [] (some 7) 1 "USD" "100" "BTC" "BTC" 1 "h9" none).2.2 ("txn_onramp_" ++ "h9")).map (·.db_id)) = some none) := by
  refine ⟨?_, ?_, ?_, ?_, ?_⟩
  · exact C10_helpers_return_none.1 { createRaises := true } [] [] (some 7) "ONRAMP" "BUY" "USD" (some "100") "BTC" none none none none none none none none none none none none [] rfl
  · exact C10_helpers_return_none.2.1 {} [] [] "ONRAMP" "BUY" "USD" (some "100") "BTC" none none none none none none none none none none none none []
  · exact C10_helpers_return_none.2.2.1 { saveRaises := true } [{ id := 1, transaction_id := "t1", status := "PENDING" }] (some "t1") none (some "COMPLETED") none none none none rfl
  · exact C10_helpers_return_none.2.2.2.1 { findRaises := true } [{ id := 1, transaction_id := "t1", status := "PENDING" }] (some "t1") none none rfl
  · exact C10_helpers_return_none.2.2.2.2 { createRaises := true } [] [] 7 1 1 "USD" "100" "BTC" "BTC" "h9" none rfl

/-! ## Claim C2 -/

/-- Claim C2: delivering the same OnRamp event id twice mutates the cache
record and the linked database row exactly once - the first call applies
the update and answers 200, stores the dedup marker for 7 days
(604800 s), and the second call answers 200 as a duplicate with all state
unchanged. -/
theorem C2_webhook_idempotent :
    ∀ (o o2 : Oracle) (req : OnrampWebhookRequest) (cache : Cache) (db : Db)
      (e rid did : Nat) (r : TxnRec) (t : DbTxn),
      req.sigValid = true → req.parseRaises = false →
      req.payload.eventId = some e → e ≠ 0 →
      req.payload.referenceId = some rid → rid ≠ 0 →
      cacheGet cache ("onramp_event_" ++ toString e) = none →
      cacheGetRec cache ("txn_onramp_" ++ toString rid) = some r →
      r.db_id = some did → did ≠ 0 →
      db.filter (fun x => x.id = did) = [t] →
      (onramp_webhook o req cache db).1.httpStatus = 200 ∧
      (onramp_webhook o2 req (onramp_webhook o req cache db).2.1 (onramp_webhook o req cache db).2.2).1 =
        ⟨200, "Duplicate event"⟩ ∧
      (onramp_webhook o2 req (onramp_webhook o req cache db).2.1 (onramp_webhook o req cache db).2.2).2 =
        (onramp_webhook o req cache db).2 ∧
      cacheGetEntry (onramp_webhook o req cache db).2.1 ("onramp_event_" ++ toString e) =
        some ⟨"onramp_event_" ++ toString e, .flag true, 604800⟩ ∧
      cacheGetRec (onramp_webhook o req cache db).2.1 ("txn_onramp_" ++ toString rid) =
        some (onrampApplyToRec o req.payload
          (lookupTabD onramp_status_mapping (pyUpper req.payload.statusValue) "PENDING")
          (pyUpper req.payload.statusValue) (pyUpper req.payload.eventType) rid r) ∧
      (onramp_webhook o req cache db).2.2 =
        db.map (fun x => if x.id = t.id then
          onrampApplyToDb o req.payload
            (lookupTabD onramp_status_mapping (pyUpper req.payload.statusValue) "PENDING")
            (pyUpper req.payload.eventType) rid t else x) := by
  intro o o2 req cache db e rid did r t h1 h2 h3 h4 h5 h6 h7 h8 h9 h10 h11
  have heb : natTruthy (some e) = true := by simp [natTruthy, h4]
  have hrb : natTruthy (some rid) = true := by simp [natTruthy, h6]
  have hdb : natTruthy (some did) = true := by simp [natTruthy, h10]
  have hkne : ("txn_onramp_" ++ toString rid) ≠ ("onramp_event_" ++ toString e) :=
    txnKey_ne_eventKey _ _
  have hrec1 : cacheGetRec (cacheSet cache ("onramp_event_" ++ toString e) (.flag true) 604800)
      ("txn_onramp_" ++ toString rid) = some r := by
    rw [cacheGetRec_set_ne _ _ _ _ _ hkne]
    exact h8
  have hw1 : onramp_webhook o req cache db =
      (⟨200, "Webhook processed"⟩,
       cacheSet (cacheSet cache ("onramp_event_" ++ toString e) (.flag true) 604800)
         ("txn_onramp_" ++ toString rid)
         (.txn (onrampApplyToRec o req.payload
           (lookupTabD onramp_status_mapping (pyUpper req.payload.statusValue) "PENDING")
           (pyUpper req.payload.statusValue) (pyUpper req.payload.eventType) rid r)) 86400,
       db.map (fun x => if x.id = t.id then
         onrampApplyToDb o req.payload
           (lookupTabD onramp_status_mapping (pyUpper req.payload.statusValue) "PENDING")
           (pyUpper req.payload.eventType) rid t else x)) := by
    simp [onramp_webhook, h1, h2, h3, h5, h7, h9, h11, heb, hrb, hdb, hrec1]
  have hdup2 : cacheGet (cacheSet (cacheSet cache ("onramp_event_" ++ toString e) (.flag true) 604800)
      ("txn_onramp_" ++ toString rid)
      (.txn (onrampApplyToRec o req.payload
        (lookupTabD onramp_status_mapping (pyUpper req.payload.statusValue) "PENDING")
        (pyUpper req.payload.statusValue) (pyUpper req.payload.eventType) rid r)) 86400)
      ("onramp_event_" ++ toString e) = some (.flag true) := by
    rw [cacheGet_set_ne _ _ _ _ _ (Ne.symm hkne)]
    exact cacheGet_set_same _ _ _ _
  have hw2 : onramp_webhook o2 req
      (cacheSet (cacheSet cache ("onramp_event_" ++ toString e) (.flag true) 604800)
        ("txn_onramp_" ++ toString rid)
        (.txn (onrampApplyToRec o req.payload
          (lookupTabD onramp_status_mapping (pyUpper req.payload.statusValue) "PENDING")
          (pyUpper req.payload.statusValue) (pyUpper req.payload.eventType) rid r)) 86400)
      (db.map (fun x => if x.id = t.id then
        onrampApplyToDb o req.payload
          (lookupTabD onramp_status_mapping (pyUpper req.payload.statusValue) "PENDING")
          (pyUpper req.payload.eventType) rid t else x)) =
      (⟨200, "Duplicate event"⟩,
       cacheSet (cacheSet cache ("onramp_event_" ++ toString e) (.flag true) 604800)
         ("txn_onramp_" ++ toString rid)
         (.txn (onrampApplyToRec o req.payload
           (lookupTabD onramp_status_mapping (pyUpper req.payload.statusValue) "PENDING")
           (pyUpper req.payload.statusValue) (pyUpper req.payload.eventType) rid r)) 86400,
       db.map (fun x => if x.id = t.id then
         onrampApplyToDb o req.payload
           (lookupTabD onramp_status_mapping (pyUpper req.payload.statusValue) "PENDING")
           (pyUpper req.payload.eventType) rid t else x)) := by
    simp [onramp_webhook, h1, h2, h3, heb, hdup2, cvTruthy]
  rw [hw1]
  refine ⟨rfl, ?_, ?_, ?_, ?_, rfl⟩
  · rw [hw2]
  · rw [hw2]
  · rw [cacheGetEntry_set_ne _ _ _ _ _ (Ne.symm hkne)]
    exact cacheGetEntry_set_same _ _ _ _
  · exact cacheGetRec_set_txn_same _ _ _ _

/-- Claim C2, witness: the duplicate-delivery scenario at a concrete
state (event id 5, reference id 42, linked row 1). -/
theorem C2_witness :
    (let req0 : OnrampWebhookRequest := { payload := { referenceId := some 42, eventType := "ONRAMP", statusValue := "ON_CHAIN_COMPLETED", eventId := some 5 } }
     let c0 : Cache := [⟨"txn_onramp_42", .txn { transaction_id := "txn_onramp_42", db_id := some 1, provider := "ONRAMP", status := "PENDING", url_hash := some "42" }, 86400⟩]
     let db0 : Db := [{ id := 1, transaction_id := "txn_onramp_abc", provider := "ONRAMP", status := "PENDING" }]
     (onramp_webhook { now := 2000 } req0 c0 db0).1.httpStatus = 200 ∧
     (onramp_webhook { now := 3000 } req0 (onramp_webhook { now := 2000 } req0 c0 db0).2.1 (onramp_webhook { now := 2000 } req0 c0 db0).2.2).1 = ⟨200, "Duplicate event"⟩ ∧
     (onramp_webhook { now := 3000 } req0 (onramp_webhook { now := 2000 } req0 c0 db0).2.1 (onramp_webhook { now := 2000 } req0 c0 db0).2.2).2 = (onramp_webhook { now := 2000 } req0 c0 db0).2 ∧
     cacheGetEntry (onramp_webhook { now := 2000 } req0 c0 db0).2.1 ("onramp_event_" ++ toString (5 : Nat)) = some ⟨"onramp_event_" ++ toString (5 : Nat), .flag true, 604800⟩ ∧
     cacheGetRec (onramp_webhook { now := 2000 } req0 c0 db0).2.1 ("txn_onramp_" ++ toString (42 : Nat)) =
       some (onrampApplyToRec { now := 2000 } req0.payload
         (lookupTabD onramp_status_mapping (pyUpper req0.payload.statusValue) "PENDING")
         (pyUpper req0.payload.statusValue) (pyUpper req0.payload.eventType) 42
         { transaction_id := "txn_onramp_42", db_id := some 1, provider := "ONRAMP", status := "PENDING", url_hash := some "42" }) ∧
     (onramp_webhook { now := 2000 } req0 c0 db0).2.2 =
       db0.map (fun x => if x.id = ({ id := 1, transaction_id := "txn_onramp_abc", provider := "ONRAMP", status := "PENDING" } : DbTxn).id then
         onrampApplyToDb { now := 2000 } req0.payload
           (lookupTabD onramp_status_mapping (pyUpper req0.payload.statusValue) "PENDING")
           (pyUpper req0.payload.eventType) 42
           { id := 1, transaction_id := "txn_onramp_abc", provider := "ONRAMP", status := "PENDING" } else x)) := by
  exact C2_webhook_idempotent { now := 2000 } { now := 3000 }
    { payload := { referenceId := some 42, eventType := "ONRAMP", statusValue := "ON_CHAIN_COMPLETED", eventId := some 5 } }
    [⟨"txn_onramp_42", .txn { transaction_id := "txn_onramp_42", db_id := some 1, provider := "ONRAMP", status := "PENDING", url_hash := some "42" }, 86400⟩]
    [{ id := 1, transaction_id := "txn_onramp_abc", provider := "ONRAMP", status := "PENDING" }]
    5 42 1
    { transaction_id := "txn_onramp_42", db_id := some 1, provider := "ONRAMP", status := "PENDING", url_hash := some "42" }
    { id := 1, transaction_id := "txn_onramp_abc", provider := "ONRAMP", status := "PENDING" }
    rfl rfl rfl (by decide) rfl (by decide) (by decide) (by decide) rfl (by decide) (by decide)

/-! ## Claim C8 -/

/-- Claim C8: an anonymous creation writes no database row and a cache
entry with no `db_id` back-reference; the subsequent webhook for it
updates only the cache entry, performs no database update, and completes
with 200. -/
theorem C8_anonymous_flow :
    ∀ (o o2 : Oracle) (db : Db) (cache : Cache) (flowType fiat : Nat)
      (sc sa dc nw : String) (link : Option String)
      (req : OnrampWebhookRequest) (rid : Nat),
      req.sigValid = true → req.parseRaises = false →
      req.payload.eventId = none →
      req.payload.referenceId = some rid → rid ≠ 0 →
      (generate_onramp_url o db cache none flowType sc sa dc nw fiat (toString rid) link).2.1 = db ∧
      (generate_onramp_url o db cache none flowType sc sa dc nw fiat (toString rid) link).1.success = true ∧
      (generate_onramp_url o db cache none flowType sc sa dc nw fiat (toString rid) link).1.transactionId = "txn_onramp_" ++ toString rid ∧
      ((cacheGetRec (generate_onramp_url o db cache none flowType sc sa dc nw fiat (toString rid) link).2.2 ("txn_onramp_" ++ toString rid)).map (·.db_id)) = some none ∧
      (onramp_webhook o2 req (generate_onramp_url o db cache none flowType sc sa dc nw fiat (toString rid) link).2.2 (generate_onramp_url o db cache none flowType sc sa dc nw fiat (toString rid) link).2.1).1.httpStatus = 200 ∧
      (onramp_webhook o2 req (generate_onramp_url o db cache none flowType sc sa dc nw fiat (toString rid) link).2.2 (generate_onramp_url o db cache none flowType sc sa dc nw fiat (toString rid) link).2.1).2.2 = db ∧
      ((cacheGetRec (onramp_webhook o2 req (generate_onramp_url o db cache none flowType sc sa dc nw fiat (toString rid) link).2.2 (generate_onramp_url o db cache none flowType sc sa dc nw fiat (toString rid) link).2.1).2.1 ("txn_onramp_" ++ toString rid)).map
        (fun x => (x.status, x.db_id))) =
        some (lookupTabD onramp_status_mapping (pyUpper req.payload.statusValue) "PENDING", none) := by
  intro o o2 db cache flowType fiat sc sa dc nw link req rid h1 h2 h3 h4 h5
  have hrb : natTruthy (some rid) = true := by simp [natTruthy, h5]
  have hne : natTruthy none = false := rfl
  simp only [generate_onramp_url, should_save_transaction, Option.isSome_none,
    Bool.false_eq_true, if_false, Option.map_none]
  refine ⟨trivial, trivial, trivial, ?_, ?_, ?_, ?_⟩
  · rw [cacheGetRec_set_txn_same]
    rfl
  · simp [onramp_webhook, h1, h2, h3, h4, hne, hrb, cacheGetRec_set_txn_same,
      onrampApplyToRec]
  · simp [onramp_webhook, h1, h2, h3, h4, hne, hrb, cacheGetRec_set_txn_same,
      onrampApplyToRec]
  · simp [onramp_webhook, h1, h2, h3, h4, hne, hrb, cacheGetRec_set_txn_same,
      onrampApplyToRec]

/-- Claim C8, witness: the anonymous flow at a concrete request
(reference id 42, creation at time 11, webhook at time 2000). -/
theorem C8_witness :
    (generate_onramp_url { now := 11 } [] [] none 1 "USD" "100" "BTC" "BTC" 1 (toString (42 : Nat)) (some "https://w")).2.1 = ([] : Db) ∧
    (generate_onramp_url { now := 11 } [] [] none 1 "USD" "100" "BTC" "BTC" 1 (toString (42 : Nat)) (some "https://w")).1.success = true ∧
    (generate_onramp_url { now := 11 } [] [] none 1 "USD" "100" "BTC" "BTC" 1 (toString (42 : Nat)) (some "https://w")).1.transactionId = "txn_onramp_" ++ toString (42 : Nat) ∧
    ((cacheGetRec (generate_onramp_url { now := 11 } [] [] none 1 "USD" "100" "BTC" "BTC" 1 (toString (42 : Nat)) (some "https://w")).2.2 ("txn_onramp_" ++ toString (42 : Nat))).map (·.db_id)) = some none ∧
    (onramp_webhook { now := 2000 } { payload := { referenceId := some 42, statusValue := "ON_CHAIN_COMPLETED" } } (generate_onramp_url { now := 11 } [] [] none 1 "USD" "100" "BTC" "BTC" 1 (toString (42 : Nat)) (some "https://w")).2.2 (generate_onramp_url { now := 11 } [] [] none 1 "USD" "100" "BTC" "BTC" 1 (toString (42 : Nat)) (some "https://w")).2.1).1.httpStatus = 200 ∧
    (onramp_webhook { now := 2000 } { payload := { referenceId := some 42, statusValue := "ON_CHAIN_COMPLETED" } } (generate_onramp_url { now := 11 } [] [] none 1 "USD" "100" "BTC" "BTC" 1 (toString (42 : Nat)) (some "https://w")).2.2 (generate_onramp_url { now := 11 } [] [] none 1 "USD" "100" "BTC" "BTC" 1 (toString (42 : Nat)) (some "https://w")).2.1).2.2 = ([] : Db) ∧
    ((cacheGetRec (onramp_webhook { now := 2000 } { payload := { referenceId := some 42, statusValue := "ON_CHAIN_COMPLETED" } } (generate_onramp_url { now := 11 } [] [] none 1 "USD" "100" "BTC" "BTC" 1 (toString (42 : Nat)) (some "https://w")).2.2 (generate_onramp_url { now := 11 } [] [] none 1 "USD" "100" "BTC" "BTC" 1 (toString (42 : Nat)) (some "https://w")).2.1).2.1 ("txn_onramp_" ++ toString (42 : Nat))).map
      (fun x => (x.status, x.db_id))) =
      some (lookupTabD onramp_status_mapping (pyUpper "ON_CHAIN_COMPLETED") "PENDING", none) := by
  exact C8_anonymous_flow { now := 11 } { now := 2000 } [] [] 1 1 "USD" "100" "BTC" "BTC"
    (some "https://w") { payload := { referenceId := some 42, statusValue := "ON_CHAIN_COMPLETED" } }
    42 rfl rfl rfl rfl (by decide)

end Bitexly
